import Mathlib

/-!
Verification of spec claims against the OpenLogReplicator fork sources.

Shallow embedding of the parts of the code base the claims touch:
Reader (checkBlockHeader, reloadHeaderRead, reloadHeader CRC retry, read1,
calcChSum), Parser (LwnMember heap and the end-of-LWN checkpoint step),
Writer (confirmMessage, writeCheckpoint, readCheckpoint) and
MemoryManager (getChunkToSwap).

Machine integers are modelled as Nat (with explicit bounds where overflow
matters); byte buffers are functions from offsets to byte values.
-/

set_option autoImplicit false

namespace OpenLogReplicator

/-! ### Common types

Scn, from Scn.h (the file's text sits in src/src/common/table/SysObj.h,
concatenated after the SysObj declarations): a uint64_t data value with
NONE = 0xFFFFFFFFFFFFFFFF and plain integer comparison operators that do
not special-case the sentinel.  We represent the data value as a Nat
together with the sentinel constant below. -/

/-- Scn sentinel, from Scn.h: NONE = 0xFFFFFFFFFFFFFFFF. -/
def Scn.none : Nat := 2 ^ 64 - 1

/-- Seq sentinel, from src/common/types/Seq.h: NONE = 0xFFFFFFFF. -/
def Seq.none : Nat := 2 ^ 32 - 1

/-- Seq zero, from src/common/types/Seq.h: the default constructed Seq. -/
def Seq.zero : Nat := 0

/-- Reader::REDO_CODE from Reader.h. -/
inductive REDO_CODE where
  | OK | OVERWRITTEN | FINISHED | STOPPED | SHUTDOWN | EMPTY
  | ERROR_READ | ERROR_WRITE | ERROR_SEQUENCE | ERROR_CRC | ERROR_BLOCK
  | ERROR_BAD_DATA | ERROR
deriving DecidableEq, Repr

/-- Reader status, from the Reader state machine in the spec and Reader.h
(SLEEPING, CHECK, UPDATE, READ). Only UPDATE matters for the embedded
functions. -/
inductive READER_STATUS where
  | SLEEPING | CHECK | UPDATE | READ
deriving DecidableEq, Repr

/-! ### Byte-level reads

Ctx.h is not among the provided sources.
Modelled from the spec: ctx->read16 and ctx->read32 read 16/32-bit values
in the endianness detected from the redo header (bytes 28 to 31 of block 0);
a buffer is a function from byte offset to byte value. -/

def read16 (be : Bool) (b : Nat → Nat) (o : Nat) : Nat :=
  if be then b o * 256 + b (o + 1) else b o + b (o + 1) * 256

def read32 (be : Bool) (b : Nat → Nat) (o : Nat) : Nat :=
  if be then
    ((b o * 256 + b (o + 1)) * 256 + b (o + 2)) * 256 + b (o + 3)
  else
    b o + (b (o + 1) + (b (o + 2) + b (o + 3) * 256) * 256) * 256

/-- Little-endian 64-bit word at offset o, as produced by the
reinterpret_cast of 8 consecutive bytes to uint64_t on a little-endian
host in Reader::calcChSum. -/
def readU64host (b : Nat → Nat) (o : Nat) : Nat :=
  b o + (b (o + 1) + (b (o + 2) + (b (o + 3) + (b (o + 4) +
    (b (o + 5) + (b (o + 6) + b (o + 7) * 256) * 256) * 256) * 256) * 256) * 256) * 256

/-- XOR of the first n 8-byte words of the buffer, mirroring the loop
for (i = 0; i < size / 8; ++i) sum ^= *(uint64_t*)buffer in
Reader::calcChSum. -/
def xorWords (b : Nat → Nat) : Nat → Nat
  | 0 => 0
  | n + 1 => xorWords b n ^^^ readU64host b (8 * n)

/-- Reader::calcChSum from Reader.cpp: reads the stored checksum at
offset 14, XORs all 8-byte words, folds with sum ^= sum >> 32 and
sum ^= sum >> 16, XORs the stored checksum back in and masks to 16 bits. -/
def calcChSum (be : Bool) (b : Nat → Nat) (size : Nat) : Nat :=
  let oldChSum := read16 be b 14
  let sum0 := xorWords b (size / 8)
  let sum1 := sum0 ^^^ (sum0 >>> 32)
  let sum2 := sum1 ^^^ (sum1 >>> 16)
  let sum3 := sum2 ^^^ oldChSum
  sum3 &&& 0xFFFF

/-- Overwriting the stored-checksum bytes of a block (offsets 14 and 15)
with fresh byte values v and w. -/
def updChk (b : Nat → Nat) (v w : Nat) : Nat → Nat :=
  Function.update (Function.update b 14 v) 15 w

/-- The 16-bit fold used by calcChSum, applied to a bare 64-bit value:
sum ^= sum >> 32; sum ^= sum >> 16; low 16 bits. -/
def chSumFold (s : Nat) : Nat :=
  let t := s ^^^ (s >>> 32)
  let u := t ^^^ (t >>> 16)
  u &&& 0xFFFF

/-! ### Reader::checkBlockHeader -/

/-- Context/reader state consumed by Reader::checkBlockHeader. -/
structure CheckCtx where
  bigEndian : Bool
  /-- Ctx::DISABLE_CHECKS::BLOCK_SUM bit of ctx->disableChecks. -/
  disableBlockSum : Bool
deriving DecidableEq, Repr

structure ReaderState where
  blockSize : Nat
  /-- Seq value; Seq.zero means unset. -/
  sequence : Nat
  group : Int
  status : READER_STATUS
deriving DecidableEq, Repr

/-- Result of Reader::checkBlockHeader: the returned REDO_CODE, the
possibly updated file sequence, and the error or warning code logged via
ctx->error / ctx->warning (if any). -/
structure CheckResult where
  code : REDO_CODE
  sequence : Nat
  logged : Option Nat
deriving DecidableEq, Repr

/-- Reader::checkBlockHeader from Reader.cpp, translated clause by clause:
empty-block test on bytes 0 and 1; block-size versus header byte 1 test;
sequence handling (assign when unset or updating, ERROR_SEQUENCE for
group 0, EMPTY/OVERWRITTEN otherwise); header block number test; checksum
test unless disabled. -/
def checkBlockHeader (ctx : CheckCtx) (st : ReaderState) (buffer : Nat → Nat)
    (blockNumber : Nat) : CheckResult :=
  if buffer 0 = 0 ∧ buffer 1 = 0 then
    ⟨REDO_CODE.EMPTY, st.sequence, Option.none⟩
  else if (st.blockSize = 512 ∧ buffer 1 ≠ 0x22) ∨
      (st.blockSize = 1024 ∧ buffer 1 ≠ 0x22) ∨
      (st.blockSize = 4096 ∧ buffer 1 ≠ 0x82) then
    ⟨REDO_CODE.ERROR_BAD_DATA, st.sequence, Option.some 40001⟩
  else
    let blockNumberHeader := read32 ctx.bigEndian buffer 4
    let sequenceHeader := read32 ctx.bigEndian buffer 8
    let seqBranch : Option CheckResult × Nat :=
      if st.sequence = Seq.zero ∨ st.status = READER_STATUS.UPDATE then
        (Option.none, sequenceHeader)
      else if st.group = 0 then
        if st.sequence ≠ sequenceHeader then
          (Option.some ⟨REDO_CODE.ERROR_SEQUENCE, st.sequence, Option.some 60024⟩, st.sequence)
        else (Option.none, st.sequence)
      else
        if st.sequence > sequenceHeader then
          (Option.some ⟨REDO_CODE.EMPTY, st.sequence, Option.none⟩, st.sequence)
        else if st.sequence < sequenceHeader then
          (Option.some ⟨REDO_CODE.OVERWRITTEN, st.sequence, Option.none⟩, st.sequence)
        else (Option.none, st.sequence)
    match seqBranch with
    | (Option.some r, _) => r
    | (Option.none, seqOut) =>
      if blockNumberHeader ≠ blockNumber then
        ⟨REDO_CODE.ERROR_BLOCK, seqOut, Option.some 40002⟩
      else if ¬ ctx.disableBlockSum then
        let chSum := read16 ctx.bigEndian buffer 14
        let chSumCalculated := calcChSum ctx.bigEndian buffer st.blockSize
        if chSum ≠ chSumCalculated then
          ⟨REDO_CODE.ERROR_CRC, seqOut, Option.none⟩
        else ⟨REDO_CODE.OK, seqOut, Option.none⟩
      else ⟨REDO_CODE.OK, seqOut, Option.none⟩

/-! ### Reader::reloadHeaderRead -/

/-- Ctx::MIN_BLOCK_SIZE.  Ctx.h is not among the provided sources.
Modelled from the spec: the smallest supported redo block size is 512. -/
def MIN_BLOCK_SIZE : Nat := 512

/-- Result of Reader::reloadHeaderRead: returned code, error code logged
via ctx->error (if any), resulting blockSize and big-endian flag. -/
structure ReloadReadResult where
  code : REDO_CODE
  logged : Option Nat
  blockSize : Nat
  bigEndian : Bool
deriving DecidableEq, Repr

/-- Reader::reloadHeaderRead from Reader.cpp.  The I/O results are inputs:
actualRead is the byte count returned by redoRead, h is the header buffer
contents.  copyPathEmpty and copyOk stand for ctx->redoCopyPath.empty()
and the success of the pwrite to the copy file; the copy branch only runs
after the block-size validation, so it cannot affect which sizes are
accepted. -/
def reloadHeaderRead (softShutdown : Bool) (actualRead : Int) (h : Nat → Nat)
    (bigEndianIn : Bool) (blockSizeIn : Nat) (copyPathEmpty : Bool)
    (copyOk : Bool) : ReloadReadResult :=
  if softShutdown then ⟨REDO_CODE.ERROR, Option.none, blockSizeIn, bigEndianIn⟩
  else if actualRead < (MIN_BLOCK_SIZE : Int) then
    ⟨REDO_CODE.ERROR_READ, Option.some 40003, blockSizeIn, bigEndianIn⟩
  else if h 0 ≠ 0 then
    ⟨REDO_CODE.ERROR_BAD_DATA, Option.some 40003, blockSizeIn, bigEndianIn⟩
  else
    -- endianness detection from bytes 28-31
    let beBranch : Option ReloadReadResult × Bool :=
      if h 28 = 0x7A ∧ h 29 = 0x7B ∧ h 30 = 0x7C ∧ h 31 = 0x7D then
        (Option.none, true)
      else if h 28 ≠ 0x7D ∨ h 29 ≠ 0x7C ∨ h 30 ≠ 0x7B ∨ h 31 ≠ 0x7A ∨ bigEndianIn then
        (Option.some ⟨REDO_CODE.ERROR_BAD_DATA, Option.some 40004, blockSizeIn, bigEndianIn⟩,
          bigEndianIn)
      else (Option.none, bigEndianIn)
    match beBranch with
    | (Option.some r, _) => r
    | (Option.none, be) =>
      let blockSize := read32 be h 20
      let blockSizeOK :=
        (blockSize = 512 ∧ h 1 = 0x22) ∨ (blockSize = 1024 ∧ h 1 = 0x22) ∨
          (blockSize = 4096 ∧ h 1 = 0x82)
      if ¬ blockSizeOK then
        ⟨REDO_CODE.ERROR_BAD_DATA, Option.some 40005, 0, be⟩
      else if actualRead < (blockSize : Int) * 2 then
        ⟨REDO_CODE.ERROR_READ, Option.some 40003, blockSize, be⟩
      else if ¬ copyPathEmpty ∧ ¬ copyOk then
        ⟨REDO_CODE.ERROR_WRITE, Option.some 10007, blockSize, be⟩
      else ⟨REDO_CODE.OK, Option.none, blockSize, be⟩

/-! ### Reader::reloadHeader CRC retry loop -/

/-- Reader::BAD_CDC_MAX_CNT from Reader.h. -/
def BAD_CDC_MAX_CNT : Nat := 20

/-- The CRC retry loop of Reader::reloadHeader.  check i is the outcome of
the i-th call to checkBlockHeader on block 1 (the block may be re-read by
a concurrent writer between attempts, so the attempts are indexed).  cnt
is badBlockCrcCount; ret is the outcome of the latest check.  The fuel
argument mirrors the loop bound: the C++ loop can iterate at most
BAD_CDC_MAX_CNT - cnt more times, so the function is invoked with that
fuel and (as proved below) never exhausts it. -/
def crcLoop (check : Nat → REDO_CODE) : Nat → Nat → REDO_CODE → REDO_CODE × Nat
  | 0, cnt, ret => (ret, cnt)
  | fuel + 1, cnt, ret =>
    if ret ≠ REDO_CODE.ERROR_CRC then (ret, cnt)
    else if cnt + 1 = BAD_CDC_MAX_CNT then (REDO_CODE.ERROR_BAD_DATA, cnt + 1)
    else crcLoop check fuel (cnt + 1) (check (cnt + 1))

/-- The CRC phase of Reader::reloadHeader: first check, then the retry
loop; also returns the final badBlockCrcCount. -/
def reloadHeaderCrcPhase (check : Nat → REDO_CODE) : REDO_CODE × Nat :=
  crcLoop check BAD_CDC_MAX_CNT 0 (check 0)

/-! ### Reader::read1, tail part (after the physical read)

The loop validating the blocks just read, and the decision logic below it
(Reader.cpp lines 643 to 736).  The physical read itself (toRead
computation, memcpy into the ring chunks, the optional copy to the archive
path) is I/O; its outcome enters as the list of block buffers that were
read. -/

/-- Result for the block-validation scan: good block count, the REDO_CODE
of the check that ended the loop (OK when every block passed or no block
was read), and the resulting file sequence. -/
def scanBlocks (ctx : CheckCtx) (st : ReaderState) (blockNumber : Nat) :
    List (Nat → Nat) → Nat × REDO_CODE × Nat
  | [] => (0, REDO_CODE.OK, st.sequence)
  | b :: rest =>
    let r := checkBlockHeader ctx st b blockNumber
    if r.code ≠ REDO_CODE.OK then (0, r.code, r.sequence)
    else
      let t := scanBlocks ctx { st with sequence := r.sequence } (blockNumber + 1) rest
      (t.1 + 1, t.2)

/-- Result of the tail of Reader::read1. -/
structure Read1Result where
  /-- the value assigned to the ret member, if any. -/
  ret : Option REDO_CODE
  /-- the boolean returned by read1. -/
  cont : Bool
  nextScn : Nat
  /-- warning code emitted via ctx->warning, if any. -/
  warned : Option Nat
  reachedZero : Bool
  readBlocks : Bool
  goodBlocks : Nat
deriving DecidableEq, Repr

/-- Tail of Reader::read1 from Reader.cpp: validate the blocks just read,
then handle the partially-filled / rotated cases.  reloadHeaderRet is the
outcome of the reloadHeader() call in the log-switch branch (taken only
when goodBlocks = 0 and the first block is EMPTY). -/
def read1Tail (ctx : CheckCtx) (st : ReaderState) (redoVerifyDelayUs : Nat)
    (nextScnIn nextScnHeader : Nat) (reachedZeroIn readBlocksIn : Bool)
    (blocks : List (Nat → Nat)) (bufferScanBlock : Nat)
    (reloadHeaderRet : REDO_CODE) : Read1Result :=
  let scan := scanBlocks ctx st bufferScanBlock blocks
  let goodBlocks := scan.1
  let currentRet0 := scan.2.1
  if goodBlocks = 0 ∧ st.group = 0 then
    if nextScnHeader ≠ Scn.none then
      ⟨Option.some REDO_CODE.FINISHED, false, nextScnHeader, Option.none,
        reachedZeroIn, readBlocksIn, goodBlocks⟩
    else
      ⟨Option.some REDO_CODE.STOPPED, false, nextScnIn, Option.some 60023,
        reachedZeroIn, readBlocksIn, goodBlocks⟩
  else
    let currentRet1 :=
      if currentRet0 = REDO_CODE.ERROR_CRC ∧ 0 < redoVerifyDelayUs ∧ st.group ≠ 0 then
        REDO_CODE.EMPTY
      else currentRet0
    if goodBlocks = 0 ∧ currentRet1 ≠ REDO_CODE.OK ∧ currentRet1 ≠ REDO_CODE.EMPTY then
      ⟨Option.some currentRet1, false, nextScnIn, Option.none, reachedZeroIn, readBlocksIn,
        goodBlocks⟩
    else
      let afterSwitch : Option Read1Result × Bool × Bool :=
        if goodBlocks = 0 ∧ currentRet1 = REDO_CODE.EMPTY then
          if reloadHeaderRet ≠ REDO_CODE.OK then
            (Option.some ⟨Option.some reloadHeaderRet, false, nextScnIn, Option.none,
              reachedZeroIn, readBlocksIn, goodBlocks⟩, reachedZeroIn, readBlocksIn)
          else (Option.none, true, readBlocksIn)
        else (Option.none, false, true)
      match afterSwitch with
      | (Option.some r, _, _) => r
      | (Option.none, reachedZero1, readBlocks1) =>
        if currentRet1 = REDO_CODE.ERROR_SEQUENCE ∧ st.group = 0 then
          if nextScnHeader ≠ Scn.none then
            ⟨Option.some REDO_CODE.FINISHED, false, nextScnHeader, Option.none,
              reachedZero1, readBlocks1, goodBlocks⟩
          else
            ⟨Option.some REDO_CODE.STOPPED, false, nextScnIn, Option.some 60023,
              reachedZero1, readBlocks1, goodBlocks⟩
        else
          ⟨Option.none, true, nextScnIn, Option.none, reachedZero1, readBlocks1, goodBlocks⟩

/-! ### MemoryManager::getChunkToSwap -/

/-- The fields of SwapChunk used by MemoryManager::getChunkToSwap: the
chunk chain is kept only as its length (the pointers themselves are not
inspected there). -/
structure SwapChunk where
  chunksLen : Nat
  swappedMin : Int
  swappedMax : Int
  release : Bool
deriving DecidableEq, Repr

/-- MemoryManager::getChunkToSwap from MemoryManager.cpp: walk the
swap-candidate map (an ordered list of xid-chunk pairs), skip the flush
xid, released entries and entries with at most one chunk, and return the
first entry that still has an unswapped interior position, choosing index
swappedMax + 1.  nothingToSwap stands for ctx->nothingToSwap(this). -/
def getChunkToSwap (nothingToSwap : Bool) (swappedFlushXid : Nat) :
    List (Nat × SwapChunk) → Option (Nat × Int)
  | [] => Option.none
  | (swapXid, sc) :: rest =>
    if nothingToSwap then Option.none
    else if swappedFlushXid = swapXid ∨ sc.release ∨ sc.chunksLen ≤ 1 then
      getChunkToSwap nothingToSwap swappedFlushXid rest
    else if sc.swappedMax < (sc.chunksLen : Int) - 2 then
      Option.some (swapXid, sc.swappedMax + 1)
    else getChunkToSwap nothingToSwap swappedFlushXid rest

/-! ### Writer (confirmMessage, writeCheckpoint, readCheckpoint) -/

/-- The fields of BuilderMsg consumed by Writer::confirmMessage. -/
structure BuilderMsg where
  lwnScn : Nat
  lwnIdx : Nat
deriving DecidableEq, Repr

/-- The four watermark fields of the Writer (Writer.h): the local
checkpoint marks and the client-confirmed marks.  Queue contents,
reference counts and timestamps are not part of the watermark state. -/
structure WriterState where
  checkpointScn : Nat
  checkpointIdx : Nat
  confirmedScn : Nat
  confirmedIdx : Nat
deriving DecidableEq, Repr

/-- Writer field initializers from Writer.h: checkpointScn and
confirmedScn start as Scn::none, both idx fields as 0. -/
def initialWriterState : WriterState := ⟨Scn.none, 0, Scn.none, 0⟩

/-- Writer::confirmMessage from Writer.cpp, restricted to the watermark
fields: when the message's (lwnScn, lwnIdx) is lexicographically greater
than (confirmedScn, confirmedIdx), all four marks are set to the message
values (the double-checked-locking pattern repeats the same test, so one
test suffices); the queue compaction and message release below do not
touch the watermark fields. -/
def confirmMessage (st : WriterState) (msg : BuilderMsg) : WriterState :=
  if msg.lwnScn > st.confirmedScn ∨
      (msg.lwnScn = st.confirmedScn ∧ msg.lwnIdx > st.confirmedIdx) then
    ⟨msg.lwnScn, msg.lwnIdx, msg.lwnScn, msg.lwnIdx⟩
  else st

/-- The state document Writer::writeCheckpoint serializes and hands to
metadata->stateWrite. -/
structure CheckpointDoc where
  scn : Nat
  idx : Nat
  resetlogs : Nat
  activation : Nat
deriving DecidableEq, Repr

/-- Result of Writer::writeCheckpoint: the new watermark state and the
document passed to metadata->stateWrite, if that call was made. -/
structure WriteCheckpointResult where
  state : WriterState
  stateWriteCalled : Option CheckpointDoc
deriving DecidableEq, Repr

/-- Writer::writeCheckpoint from Writer.cpp: return early when nothing
changed (marks equal) or nothing confirmed yet; force the first
checkpoint; apply the interval gate unless forced; otherwise serialize
the document with the confirmed marks and call metadata->stateWrite,
updating the checkpoint marks on success.  now and checkpointTime stand
for time(nullptr) and the stored checkpoint time; stateWriteOk is the
return value of metadata->stateWrite. -/
def writeCheckpoint (st : WriterState) (force : Bool)
    (now checkpointTime intervalS resetlogs activation : Nat)
    (stateWriteOk : Bool) : WriteCheckpointResult :=
  if (st.checkpointScn = st.confirmedScn ∧ st.checkpointIdx = st.confirmedIdx) ∨
      st.confirmedScn = Scn.none then
    ⟨st, Option.none⟩
  else
    let force1 := if st.checkpointScn = Scn.none then true else force
    if now - checkpointTime < intervalS ∧ force1 = false then ⟨st, Option.none⟩
    else
      let doc : CheckpointDoc := ⟨st.confirmedScn, st.confirmedIdx, resetlogs, activation⟩
      if stateWriteOk then
        ⟨⟨st.confirmedScn, st.confirmedIdx, st.confirmedScn, st.confirmedIdx⟩,
          Option.some doc⟩
      else ⟨st, Option.some doc⟩

/-- Writer::readCheckpoint from Writer.cpp, restricted to the watermark
fields: when the state file exists and parses, checkpointScn is set from
the scn field and checkpointIdx from the idx field when present (0
otherwise); the confirmed marks are not touched.  Parse failures throw
and leave the state unchanged, as does a missing state file. -/
def readCheckpoint (st : WriterState) (stateReadOk : Bool) (fileScn : Nat)
    (idxPresent : Bool) (fileIdx : Nat) : WriterState :=
  if stateReadOk = false then st
  else
    { st with checkpointScn := fileScn,
              checkpointIdx := if idxPresent then fileIdx else 0 }

/-- Tail of Writer::mainLoop from Writer.cpp: after the processing loop
exits, a final forced checkpoint is attempted when checkpointScn is not
the NONE sentinel. -/
def mainLoopFinal (st : WriterState)
    (now checkpointTime intervalS resetlogs activation : Nat)
    (stateWriteOk : Bool) : WriteCheckpointResult :=
  if st.checkpointScn ≠ Scn.none then
    writeCheckpoint st true now checkpointTime intervalS resetlogs activation stateWriteOk
  else ⟨st, Option.none⟩

/-- The invariant of spec section 3: checkpointScn ≤ confirmedScn. -/
def writerInv (st : WriterState) : Prop := st.checkpointScn ≤ st.confirmedScn

/-! ### Parser: LwnMember heap and the end-of-LWN step -/

/-- struct LwnMember from Parser.h. -/
structure LwnMember where
  pageOffset : Nat
  scn : Nat
  size : Nat
  block : Nat
  subScn : Nat
deriving DecidableEq, Repr

instance : Inhabited LwnMember := ⟨⟨0, 0, 0, 0, 0⟩⟩

/-- LwnMember::operator< from Parser.h: the comparison used by the LWN
min-heap compares the page offsets only. -/
def LwnMember.lt (a b : LwnMember) : Bool := a.pageOffset < b.pageOffset

/-- Read of lwnMembers at a position (positions are 1-based; slot 0 is
unused). -/
def heapGet (h : List LwnMember) (i : Nat) : LwnMember := h.getD i default

/-- The sift-up loop of the heap insertion in Parser::parse (lines 647 to
651): while the new member sorts below its parent, pull the parent down
and climb.  pos halves each round, so pos itself bounds the iteration
count and serves as fuel. -/
def siftUp (m : LwnMember) : Nat → List LwnMember → Nat → List LwnMember
  | 0, h, pos => h.set pos m
  | fuel + 1, h, pos =>
    if 1 < pos ∧ LwnMember.lt m (heapGet h (pos / 2)) then
      siftUp m fuel (h.set pos (heapGet h (pos / 2))) (pos / 2)
    else h.set pos m

/-- Heap insertion from Parser::parse: lwnPos = ++lwnRecords, then sift
up.  The heap list always has length lwnRecords + 1 (slot 0 unused), so
the new slot index equals the current length. -/
def lwnInsert (h : List LwnMember) (m : LwnMember) : List LwnMember :=
  let pos := h.length
  siftUp m pos (h ++ [default]) pos

/-- The sift-down loop of the heap removal in Parser::parse (lines 711 to
728): n is the current lwnRecords; the hole at pos is filled with the
smaller child while that child sorts below lwnMembers[n]; returns the
final heap contents and hole position.  pos at least doubles each round
while staying below n, so n serves as fuel. -/
def siftDown (n : Nat) : Nat → List LwnMember → Nat → List LwnMember × Nat
  | 0, h, pos => (h, pos)
  | fuel + 1, h, pos =>
    if pos * 2 < n ∧ LwnMember.lt (heapGet h (pos * 2)) (heapGet h n) then
      if pos * 2 + 1 < n ∧ LwnMember.lt (heapGet h (pos * 2 + 1)) (heapGet h (pos * 2)) then
        siftDown n fuel (h.set pos (heapGet h (pos * 2 + 1))) (pos * 2 + 1)
      else siftDown n fuel (h.set pos (heapGet h (pos * 2))) (pos * 2)
    else if pos * 2 + 1 < n ∧ LwnMember.lt (heapGet h (pos * 2 + 1)) (heapGet h n) then
      siftDown n fuel (h.set pos (heapGet h (pos * 2 + 1))) (pos * 2 + 1)
    else (h, pos)

/-- The drain loop of Parser::parse (lines 689 to 732), with the
analyzeLwn calls abstracted into the returned list: while records remain,
hand lwnMembers[1] to analyzeLwn; when it was the last record stop,
otherwise sift down a hole from the root and move lwnMembers[lwnRecords]
into it, decrementing lwnRecords. -/
def lwnDrain : Nat → List LwnMember → List LwnMember
  | 0, _ => []
  | n + 1, h =>
    let top := heapGet h 1
    if n = 0 then [top]
    else
      let s := siftDown (n + 1) (n + 1) h 1
      top :: lwnDrain n (s.1.set s.2 (heapGet s.1 (n + 1)))

/-- The order in which the records of one LWN batch reach analyzeLwn:
each record is pushed by the scan loop, and after the last block of the
batch the heap is drained. -/
def parserDispatchOrder (ms : List LwnMember) : List LwnMember :=
  lwnDrain ms.length (ms.foldl lwnInsert [default])

/-- Calls made by the end-of-LWN step of Parser::parse, in program
order. -/
inductive ParserEvent where
  | analyze (m : LwnMember)
  | builderProcessCheckpoint (scn seq timestamp fileOffset : Nat) (switchRedo : Bool)
  | metadataCheckpoint (scn seq fileOffset minSequence minFileOffset minXid : Nat)
  | metricCheckpointsOut
  | metricCheckpointsSkip
  | metricBytesParsed (bytes : Nat)
deriving DecidableEq, Repr

/-- An entry of the transaction buffer's set of still-open transactions,
as consumed by its checkpoint query. -/
structure OpenTxn where
  sequence : Nat
  fileOffset : Nat
  xid : Nat
deriving DecidableEq, Repr

/-- TransactionBuffer::checkpoint is not among the provided sources.
Modelled from the spec: checkpoint() picks the oldest still-open
transaction and yields its (minSequence, minFileOffset, minXid); with no
open transaction the Parser's initializers (Seq::none and defaults)
survive. -/
def tbCheckpoint (txns : List OpenTxn) : Nat × Nat × Nat :=
  txns.foldl
    (fun acc t =>
      if t.sequence < acc.1 ∨ (t.sequence = acc.1 ∧ t.fileOffset < acc.2.1) then
        (t.sequence, t.fileOffset, t.xid)
      else acc)
    (Seq.none, 0, 0)

/-- The parser-loop variables read by the end-of-LWN step of
Parser::parse. -/
structure ParserBatchState where
  currentBlock : Nat
  lwnEndBlock : Nat
  lwnNumCnt : Nat
  lwnNumMax : Nat
  lwnScn : Nat
  firstDataScn : Nat
  sequence : Nat
  lwnTimestampEpoch : Nat
  blockSize : Nat
  lwnConfirmedBlock : Nat
  switchRedo : Bool
  metricsEnabled : Bool
deriving DecidableEq, Repr

/-- The end-of-LWN step of Parser::parse (lines 683 to 769), as the list
of calls it makes: when the batch's last block has been scanned
(currentBlock = lwnEndBlock and lwnNumCnt = lwnNumMax), drain the heap
into analyzeLwn, then either emit the checkpoint pair
(builder->processCheckpoint and metadata->checkpoint with the mins from
transactionBuffer->checkpoint) plus the checkpoints-out metric when
lwnScn > firstDataScn, or only the checkpoints-skip metric; finally the
bytes-parsed metric.  The stop-checkpoints countdown and freeLwn release
make no external calls relevant here. -/
def parseEndOfLwn (p : ParserBatchState) (records : List LwnMember)
    (openTxns : List OpenTxn) : List ParserEvent :=
  if p.currentBlock = p.lwnEndBlock ∧ p.lwnNumCnt = p.lwnNumMax then
    let dispatched := (parserDispatchOrder records).map ParserEvent.analyze
    let offset := p.currentBlock * p.blockSize
    let tail :=
      if p.lwnScn > p.firstDataScn then
        let mins := tbCheckpoint openTxns
        [ParserEvent.builderProcessCheckpoint p.lwnScn p.sequence p.lwnTimestampEpoch
            offset p.switchRedo,
          ParserEvent.metadataCheckpoint p.lwnScn p.sequence offset mins.1 mins.2.1
            mins.2.2] ++
          (if p.metricsEnabled then [ParserEvent.metricCheckpointsOut] else [])
      else if p.metricsEnabled then [ParserEvent.metricCheckpointsSkip] else []
    dispatched ++ tail ++
      (if p.metricsEnabled then
        [ParserEvent.metricBytesParsed ((p.currentBlock - p.lwnConfirmedBlock) * p.blockSize)]
      else [])
  else []

/-- Discriminator for analyze events. -/
def ParserEvent.isAnalyze : ParserEvent → Bool
  | ParserEvent.analyze _ => true
  | _ => false

/-- Discriminator for the two checkpoint calls. -/
def ParserEvent.isCheckpointCall : ParserEvent → Bool
  | ParserEvent.builderProcessCheckpoint _ _ _ _ _ => true
  | ParserEvent.metadataCheckpoint _ _ _ _ _ _ => true
  | _ => false

/-! ## Theorems -/

/-! ### C3: sequence mismatch handling for online/standby readers -/

/-- C3 counterexample: an online reader (group 1) expecting sequence 5
sees a data block whose header sequence is 3, which is lower than the
expected sequence.  The claim says checkBlockHeader returns OVERWRITTEN
here; the code returns EMPTY. -/
theorem C3_counterexample :
    (checkBlockHeader ⟨false, false⟩ ⟨512, 5, 1, READER_STATUS.SLEEPING⟩
        (fun i => if i = 1 then 0x22 else if i = 8 then 3 else 0) 0).code =
      REDO_CODE.EMPTY ∧
    REDO_CODE.EMPTY ≠ REDO_CODE.OVERWRITTEN := by
  exact ⟨rfl, by decide⟩

/-- C3 amended: for an online/standby reader (group not 0) with a fixed
expected sequence, a data block whose 32-bit header sequence is lower
than the expected sequence yields EMPTY (not yet written), and one whose
header sequence is higher yields OVERWRITTEN (already rotated). -/
theorem C3_sequence_mismatch (ctx : CheckCtx) (st : ReaderState) (b : Nat → Nat)
    (n : Nat) (hg : st.group ≠ 0) (hs : st.sequence ≠ Seq.zero)
    (hu : st.status ≠ READER_STATUS.UPDATE)
    (hempty : ¬ (b 0 = 0 ∧ b 1 = 0))
    (hsize : ¬ ((st.blockSize = 512 ∧ b 1 ≠ 0x22) ∨
      (st.blockSize = 1024 ∧ b 1 ≠ 0x22) ∨ (st.blockSize = 4096 ∧ b 1 ≠ 0x82))) :
    (read32 ctx.bigEndian b 8 < st.sequence →
      (checkBlockHeader ctx st b n).code = REDO_CODE.EMPTY) ∧
    (st.sequence < read32 ctx.bigEndian b 8 →
      (checkBlockHeader ctx st b n).code = REDO_CODE.OVERWRITTEN) := by
  have h1 : ¬ (st.sequence = Seq.zero ∨ st.status = READER_STATUS.UPDATE) := by
    rintro (h | h)
    · exact hs h
    · exact hu h
  constructor
  · intro hlt
    simp [checkBlockHeader, hempty, hsize, h1, hg, hlt]
  · intro hgt
    have hnlt : ¬ st.sequence > read32 ctx.bigEndian b 8 := by omega
    simp [checkBlockHeader, hempty, hsize, h1, hg, hgt, hnlt]

/-- C3 witness: concrete instantiation of C3_sequence_mismatch with
expected sequence 5 and header sequences 3 and 9. -/
theorem C3_sequence_mismatch_witness :
    (checkBlockHeader ⟨false, false⟩ ⟨512, 5, 1, READER_STATUS.SLEEPING⟩
        (fun i => if i = 1 then 0x22 else if i = 8 then 3 else 0) 0).code =
      REDO_CODE.EMPTY ∧
    (checkBlockHeader ⟨false, false⟩ ⟨512, 5, 1, READER_STATUS.SLEEPING⟩
        (fun i => if i = 1 then 0x22 else if i = 8 then 9 else 0) 0).code =
      REDO_CODE.OVERWRITTEN := by
  refine ⟨?_, ?_⟩
  · exact (C3_sequence_mismatch ⟨false, false⟩ ⟨512, 5, 1, READER_STATUS.SLEEPING⟩
      (fun i => if i = 1 then 0x22 else if i = 8 then 3 else 0) 0
      (by decide) (by decide) (by decide) (by decide) (by decide)).1 (by decide)
  · exact (C3_sequence_mismatch ⟨false, false⟩ ⟨512, 5, 1, READER_STATUS.SLEEPING⟩
      (fun i => if i = 1 then 0x22 else if i = 8 then 9 else 0) 0
      (by decide) (by decide) (by decide) (by decide) (by decide)).2 (by decide)

/-! ### C4: swap-cycle victim chunk selection -/

/-- C4 counterexample: a single swap candidate with 3 chunks and nothing
swapped yet (swappedMax = -1).  getChunkToSwap selects chunk index 0,
that is the first chunk of the chain, contradicting the claim that the
chosen index is strictly greater than 0. -/
theorem C4_counterexample :
    getChunkToSwap false 0 [(1, ⟨3, -1, -1, false⟩)] = Option.some (1, 0) ∧
    ¬ (0 : Int) > 0 := by
  exact ⟨rfl, by decide⟩

/-- C4 amended: every candidate returned by getChunkToSwap names an entry
of the candidate list that is not the flush xid, is not released and has
at least two chunks, and the chosen index is swappedMax + 1, which is at
least 0 (the first chunk can be chosen) and strictly below the chunk
count minus 1 (the tail chunk never is). -/
theorem C4_interior (nts : Bool) (flush : Nat) (l : List (Nat × SwapChunk))
    (x : Nat) (i : Int) (hmin : ∀ p ∈ l, -1 ≤ p.2.swappedMax)
    (h : getChunkToSwap nts flush l = Option.some (x, i)) :
    ∃ sc : SwapChunk, (x, sc) ∈ l ∧ 2 ≤ sc.chunksLen ∧ 0 ≤ i ∧
      i < (sc.chunksLen : Int) - 1 ∧ i = sc.swappedMax + 1 ∧
      sc.release = false ∧ x ≠ flush := by
  induction l with
  | nil => simp [getChunkToSwap] at h
  | cons hd tl ih =>
    obtain ⟨xid, sc⟩ := hd
    by_cases hn : nts
    · simp [getChunkToSwap, hn] at h
    · by_cases hskip : flush = xid ∨ sc.release ∨ sc.chunksLen ≤ 1
      · rw [getChunkToSwap, if_neg hn, if_pos hskip] at h
        obtain ⟨sc2, hmem, rest⟩ := ih (fun p hp => hmin p (List.mem_cons_of_mem _ hp)) h
        exact ⟨sc2, List.mem_cons_of_mem _ hmem, rest⟩
      · by_cases hlt : sc.swappedMax < (sc.chunksLen : Int) - 2
        · rw [getChunkToSwap, if_neg hn, if_neg hskip, if_pos hlt] at h
          have hx : x = xid ∧ i = sc.swappedMax + 1 := by
            constructor <;> · injection h with h2; injection h2 with ha hb; simp_all
          obtain ⟨hx1, hx2⟩ := hx
          push_neg at hskip
          obtain ⟨hflush, hrel, hlen⟩ := hskip
          have hmin1 : -1 ≤ sc.swappedMax := hmin (xid, sc) (List.mem_cons_self _ _)
          subst hx1
          refine ⟨sc, List.mem_cons_self _ _, by omega, by omega, by omega, hx2,
            by simpa using hrel, fun hcontra => hflush hcontra.symm⟩
        · rw [getChunkToSwap, if_neg hn, if_neg hskip, if_neg hlt] at h
          obtain ⟨sc2, hmem, rest⟩ := ih (fun p hp => hmin p (List.mem_cons_of_mem _ hp)) h
          exact ⟨sc2, List.mem_cons_of_mem _ hmem, rest⟩

/-- C4 witness: concrete run of C4_interior on a candidate with 4 chunks
and swappedMax = 0, for which chunk index 1 is chosen. -/
theorem C4_interior_witness :
    getChunkToSwap false 5 [(7, ⟨4, 0, 0, false⟩)] = Option.some (7, 1) ∧
    (∃ sc : SwapChunk, (7, sc) ∈ [(7, (⟨4, 0, 0, false⟩ : SwapChunk))] ∧
      2 ≤ sc.chunksLen ∧ 0 ≤ (1 : Int) ∧ (1 : Int) < (sc.chunksLen : Int) - 1 ∧
      (1 : Int) = sc.swappedMax + 1 ∧ sc.release = false ∧ 7 ≠ 5) := by
  refine ⟨rfl, ?_⟩
  exact C4_interior false 5 [(7, ⟨4, 0, 0, false⟩)] 7 1 (by decide) rfl

/-! ### C6: block-size auto-detection -/

/-- C6: once reloadHeaderRead has passed the basic header gates (not
shutting down, enough bytes, header byte 0 zero, valid endianness
markers fixing the effective endianness be), the block-size gate accepts
exactly 512 and 1024 with header byte 1 = 0x22 and 4096 with header
byte 1 = 0x82; every other (size, byte-1) combination yields error 40005
with ERROR_BAD_DATA and blockSize reset to 0, and an accepted size is
one of 512, 1024, 4096 and is kept as the new blockSize. -/
theorem C6_block_size_detection (actualRead : Int) (h : Nat → Nat)
    (beIn : Bool) (bsIn : Nat) (cpe cok : Bool) (be : Bool)
    (hread : ¬ actualRead < (MIN_BLOCK_SIZE : Int)) (h0 : h 0 = 0)
    (hmark : (h 28 = 0x7A ∧ h 29 = 0x7B ∧ h 30 = 0x7C ∧ h 31 = 0x7D ∧ be = true) ∨
      (h 28 = 0x7D ∧ h 29 = 0x7C ∧ h 30 = 0x7B ∧ h 31 = 0x7A ∧ beIn = false ∧
        be = false)) :
    (¬ ((read32 be h 20 = 512 ∧ h 1 = 0x22) ∨ (read32 be h 20 = 1024 ∧ h 1 = 0x22) ∨
        (read32 be h 20 = 4096 ∧ h 1 = 0x82)) →
      (reloadHeaderRead false actualRead h beIn bsIn cpe cok).code =
          REDO_CODE.ERROR_BAD_DATA ∧
        (reloadHeaderRead false actualRead h beIn bsIn cpe cok).logged =
          Option.some 40005 ∧
        (reloadHeaderRead false actualRead h beIn bsIn cpe cok).blockSize = 0) ∧
    (((read32 be h 20 = 512 ∧ h 1 = 0x22) ∨ (read32 be h 20 = 1024 ∧ h 1 = 0x22) ∨
        (read32 be h 20 = 4096 ∧ h 1 = 0x82)) →
      (read32 be h 20 = 512 ∨ read32 be h 20 = 1024 ∨ read32 be h 20 = 4096) ∧
        (reloadHeaderRead false actualRead h beIn bsIn cpe cok).blockSize =
          read32 be h 20 ∧
        (reloadHeaderRead false actualRead h beIn bsIn cpe cok).logged ≠
          Option.some 40005 ∧
        ((reloadHeaderRead false actualRead h beIn bsIn cpe cok).code = REDO_CODE.OK ∨
          (reloadHeaderRead false actualRead h beIn bsIn cpe cok).code =
            REDO_CODE.ERROR_READ ∨
          (reloadHeaderRead false actualRead h beIn bsIn cpe cok).code =
            REDO_CODE.ERROR_WRITE)) := by
  have hred : reloadHeaderRead false actualRead h beIn bsIn cpe cok =
      (let blockSize := read32 be h 20
       let blockSizeOK :=
         (blockSize = 512 ∧ h 1 = 0x22) ∨ (blockSize = 1024 ∧ h 1 = 0x22) ∨
           (blockSize = 4096 ∧ h 1 = 0x82)
       if ¬ blockSizeOK then
         ⟨REDO_CODE.ERROR_BAD_DATA, Option.some 40005, 0, be⟩
       else if actualRead < (blockSize : Int) * 2 then
         ⟨REDO_CODE.ERROR_READ, Option.some 40003, blockSize, be⟩
       else if ¬ cpe ∧ ¬ cok then
         ⟨REDO_CODE.ERROR_WRITE, Option.some 10007, blockSize, be⟩
       else ⟨REDO_CODE.OK, Option.none, blockSize, be⟩) := by
    rcases hmark with ⟨m1, m2, m3, m4, hbe⟩ | ⟨m1, m2, m3, m4, hbi, hbe⟩
    · subst hbe
      simp [reloadHeaderRead, hread, h0, m1, m2, m3, m4]
    · subst hbe; subst hbi
      have hne : ¬ (h 28 = 0x7A ∧ h 29 = 0x7B ∧ h 30 = 0x7C ∧ h 31 = 0x7D) := by
        rw [m1]; rintro ⟨hc, -⟩; exact absurd hc (by decide)
      simp [reloadHeaderRead, hread, h0, hne, m1, m2, m3, m4]
  constructor
  · intro hbad
    rw [hred]
    rw [if_pos hbad]
    exact ⟨rfl, rfl, rfl⟩
  · intro hok
    rw [hred]
    simp only [if_neg (not_not_intro hok)]
    refine ⟨?_, ?_⟩
    · rcases hok with ⟨hs, -⟩ | ⟨hs, -⟩ | ⟨hs, -⟩ <;> simp [hs]
    · split
      · exact ⟨rfl, by simp, by simp⟩
      · split
        · exact ⟨rfl, by simp, by simp⟩
        · exact ⟨rfl, by simp, by simp⟩

/-- C6 witness: a little-endian header advertising block size 512 with
byte 1 = 0x22 is accepted, and the same header with size field 2048 is
rejected with error 40005. -/
theorem C6_block_size_detection_witness :
    (reloadHeaderRead false 1024
        (fun i => if i = 1 then 0x22 else if i = 21 then 2 else
          if i = 28 then 0x7D else if i = 29 then 0x7C else
          if i = 30 then 0x7B else if i = 31 then 0x7A else 0)
        false 0 true true).blockSize = 512 ∧
    (reloadHeaderRead false 1024
        (fun i => if i = 1 then 0x22 else if i = 21 then 8 else
          if i = 28 then 0x7D else if i = 29 then 0x7C else
          if i = 30 then 0x7B else if i = 31 then 0x7A else 0)
        false 0 true true).logged = Option.some 40005 := by
  constructor
  · exact ((C6_block_size_detection 1024
      (fun i => if i = 1 then 0x22 else if i = 21 then 2 else
        if i = 28 then 0x7D else if i = 29 then 0x7C else
        if i = 30 then 0x7B else if i = 31 then 0x7A else 0)
      false 0 true true false (by decide) (by decide)
      (Or.inr (by refine ⟨?_, ?_, ?_, ?_, rfl, rfl⟩ <;> decide))).2
      (by decide)).2.1.trans (by decide)
  · exact ((C6_block_size_detection 1024
      (fun i => if i = 1 then 0x22 else if i = 21 then 8 else
        if i = 28 then 0x7D else if i = 29 then 0x7C else
        if i = 30 then 0x7B else if i = 31 then 0x7A else 0)
      false 0 true true false (by decide) (by decide)
      (Or.inr (by refine ⟨?_, ?_, ?_, ?_, rfl, rfl⟩ <;> decide))).1
      (by decide)).2.1

/-! ### C7: offline reader hitting an unreadable position -/

/-- C7: for an offline/batch reader (group 0), when the block scan at
the current position yields no valid block, read1 stops the file:
FINISHED with the header's next SCN published when the header carries
one, otherwise STOPPED with warning 60023. -/
theorem C7_group0_end (ctx : CheckCtx) (st : ReaderState) (rv : Nat)
    (nextScnIn nextScnHeader : Nat) (rz rb : Bool) (blocks : List (Nat → Nat))
    (bsb : Nat) (reload : REDO_CODE) (hg : st.group = 0)
    (hzero : (scanBlocks ctx st bsb blocks).1 = 0) :
    (nextScnHeader ≠ Scn.none →
      (read1Tail ctx st rv nextScnIn nextScnHeader rz rb blocks bsb reload).ret =
          Option.some REDO_CODE.FINISHED ∧
        (read1Tail ctx st rv nextScnIn nextScnHeader rz rb blocks bsb reload).nextScn =
          nextScnHeader ∧
        (read1Tail ctx st rv nextScnIn nextScnHeader rz rb blocks bsb reload).cont =
          false) ∧
    (nextScnHeader = Scn.none →
      (read1Tail ctx st rv nextScnIn nextScnHeader rz rb blocks bsb reload).ret =
          Option.some REDO_CODE.STOPPED ∧
        (read1Tail ctx st rv nextScnIn nextScnHeader rz rb blocks bsb reload).warned =
          Option.some 60023 ∧
        (read1Tail ctx st rv nextScnIn nextScnHeader rz rb blocks bsb reload).cont =
          false) := by
  constructor
  · intro hns
    simp [read1Tail, hzero, hg, hns]
  · intro hns
    simp [read1Tail, hzero, hg, hns]

/-- C7 witness: a zero-filled block (bytes 0 and 1 both zero) scans as
EMPTY, so no valid block is read; with next SCN 12345 in the header the
result is FINISHED publishing 12345, and with no next SCN it is STOPPED
with warning 60023. -/
theorem C7_group0_end_witness :
    (read1Tail ⟨false, true⟩ ⟨512, 5, 0, READER_STATUS.SLEEPING⟩ 0 0 12345
        false false [fun _ => 0] 2 REDO_CODE.OK).ret =
      Option.some REDO_CODE.FINISHED ∧
    (read1Tail ⟨false, true⟩ ⟨512, 5, 0, READER_STATUS.SLEEPING⟩ 0 0 12345
        false false [fun _ => 0] 2 REDO_CODE.OK).nextScn = 12345 ∧
    (read1Tail ⟨false, true⟩ ⟨512, 5, 0, READER_STATUS.SLEEPING⟩ 0 0 Scn.none
        false false [fun _ => 0] 2 REDO_CODE.OK).ret =
      Option.some REDO_CODE.STOPPED := by
  have h1 := (C7_group0_end ⟨false, true⟩ ⟨512, 5, 0, READER_STATUS.SLEEPING⟩ 0 0
    12345 false false [fun _ => 0] 2 REDO_CODE.OK rfl rfl).1 (by decide)
  have h2 := (C7_group0_end ⟨false, true⟩ ⟨512, 5, 0, READER_STATUS.SLEEPING⟩ 0 0
    Scn.none false false [fun _ => 0] 2 REDO_CODE.OK rfl rfl).2 rfl
  exact ⟨h1.1, h1.2.1, h2.1⟩

/-! ### C8: CRC retry loop of reloadHeader -/

/-- Helper: the CRC retry loop result does not depend on the fuel bound
once the fuel covers the remaining retry budget; this is the termination
argument of the C++ while loop (the counter reaches BAD_CDC_MAX_CNT). -/
theorem crcLoop_fuel_eq (check : Nat → REDO_CODE) :
    ∀ fuel1 fuel2 cnt ret, cnt < BAD_CDC_MAX_CNT →
      BAD_CDC_MAX_CNT - cnt ≤ fuel1 → BAD_CDC_MAX_CNT - cnt ≤ fuel2 →
      crcLoop check fuel1 cnt ret = crcLoop check fuel2 cnt ret := by
  intro fuel1
  induction fuel1 with
  | zero => intro fuel2 cnt ret hc h1 _; omega
  | succ f1 ih =>
    intro fuel2 cnt ret hc h1 h2
    match fuel2 with
    | 0 => omega
    | f2 + 1 =>
      rw [crcLoop, crcLoop]
      by_cases hr : ret ≠ REDO_CODE.ERROR_CRC
      · simp [hr]
      · simp only [if_neg hr]
        by_cases hm : cnt + 1 = BAD_CDC_MAX_CNT
        · simp [hm]
        · simp only [if_neg hm]
          exact ih f2 (cnt + 1) (check (cnt + 1)) (by omega) (by omega) (by omega)

/-- Helper: the retry counter never exceeds BAD_CDC_MAX_CNT. -/
theorem crcLoop_cnt_le (check : Nat → REDO_CODE) :
    ∀ fuel cnt ret, cnt < BAD_CDC_MAX_CNT →
      (crcLoop check fuel cnt ret).2 ≤ BAD_CDC_MAX_CNT := by
  intro fuel
  induction fuel with
  | zero => intro cnt ret hc; exact Nat.le_of_lt hc
  | succ f ih =>
    intro cnt ret hc
    rw [crcLoop]
    by_cases hr : ret ≠ REDO_CODE.ERROR_CRC
    · simp [hr]; omega
    · simp only [if_neg hr]
      by_cases hm : cnt + 1 = BAD_CDC_MAX_CNT
      · simp [hm]
      · simp only [if_neg hm]
        exact ih (cnt + 1) (check (cnt + 1)) (by omega)

/-- Helper: with every check failing the CRC test, the loop runs its
full budget and returns ERROR_BAD_DATA. -/
theorem crcLoop_all_crc (check : Nat → REDO_CODE)
    (hall : ∀ i, check i = REDO_CODE.ERROR_CRC) :
    ∀ fuel cnt, cnt + fuel = BAD_CDC_MAX_CNT → 0 < fuel →
      crcLoop check fuel cnt REDO_CODE.ERROR_CRC =
        (REDO_CODE.ERROR_BAD_DATA, BAD_CDC_MAX_CNT) := by
  intro fuel
  induction fuel with
  | zero => intro cnt _ h0; omega
  | succ f ih =>
    intro cnt hsum _
    rw [crcLoop]
    simp only [ne_eq, not_true_eq_false, if_false, ite_false, if_neg (by simp : ¬ (REDO_CODE.ERROR_CRC ≠ REDO_CODE.ERROR_CRC))]
    by_cases hm : cnt + 1 = BAD_CDC_MAX_CNT
    · simp [hm]
    · simp only [if_neg hm]
      rw [hall (cnt + 1)]
      exact ih (cnt + 1) (by omega) (by omega)

/-- C8: the reloadHeader CRC retry loop terminates of its own accord
(its value is fuel-independent once the fuel covers the retry budget),
runs at most BAD_CDC_MAX_CNT = 20 attempts, and if the checksum mismatch
persists for all attempts it returns ERROR_BAD_DATA after exactly the
20th attempt. -/
theorem C8_crc_retry (check : Nat → REDO_CODE) :
    (∀ fuel, BAD_CDC_MAX_CNT ≤ fuel →
      crcLoop check fuel 0 (check 0) = reloadHeaderCrcPhase check) ∧
    (reloadHeaderCrcPhase check).2 ≤ BAD_CDC_MAX_CNT ∧
    ((∀ i, check i = REDO_CODE.ERROR_CRC) →
      reloadHeaderCrcPhase check = (REDO_CODE.ERROR_BAD_DATA, BAD_CDC_MAX_CNT)) := by
  refine ⟨?_, ?_, ?_⟩
  · intro fuel hf
    exact crcLoop_fuel_eq check fuel BAD_CDC_MAX_CNT 0 (check 0) (by decide)
      (by omega) (by omega)
  · exact crcLoop_cnt_le check BAD_CDC_MAX_CNT 0 (check 0) (by decide)
  · intro hall
    unfold reloadHeaderCrcPhase
    rw [hall 0]
    exact crcLoop_all_crc check hall BAD_CDC_MAX_CNT 0 (by omega) (by decide)

/-- C8 witness: with a permanently failing checksum the phase returns
ERROR_BAD_DATA after 20 attempts, and extra fuel does not change the
loop's value. -/
theorem C8_crc_retry_witness :
    reloadHeaderCrcPhase (fun _ => REDO_CODE.ERROR_CRC) =
      (REDO_CODE.ERROR_BAD_DATA, BAD_CDC_MAX_CNT) ∧
    crcLoop (fun _ => REDO_CODE.ERROR_CRC) 25 0 REDO_CODE.ERROR_CRC =
      reloadHeaderCrcPhase (fun _ => REDO_CODE.ERROR_CRC) := by
  exact ⟨(C8_crc_retry (fun _ => REDO_CODE.ERROR_CRC)).2.2 (fun _ => rfl),
    (C8_crc_retry (fun _ => REDO_CODE.ERROR_CRC)).1 25 (by decide)⟩

/-! ### C2: the final forced checkpoint on soft shutdown -/

/-- C2: the code contradicts the claimed final-checkpoint behavior.
Writer::confirmMessage sets checkpointScn/checkpointIdx to the confirmed
marks on every effective confirmation without persisting anything, so
after any confirmation the two mark pairs are equal and the final
writeCheckpoint(true) of Writer::mainLoop exits at its nothing-changed
gate: metadata->stateWrite is never called, no matter which state the
writer confirmed from and whether the run-loop exit takes the
checkpointScn-not-NONE branch. -/
theorem C2_confirm_blocks_final_checkpoint (st : WriterState) (msg : BuilderMsg)
    (now cpt intervalS rl act : Nat) (ok : Bool)
    (hchanged : confirmMessage st msg ≠ st) :
    ((confirmMessage st msg).checkpointScn = (confirmMessage st msg).confirmedScn ∧
      (confirmMessage st msg).checkpointIdx = (confirmMessage st msg).confirmedIdx) ∧
    (writeCheckpoint (confirmMessage st msg) true now cpt intervalS rl act
        ok).stateWriteCalled = Option.none ∧
    (mainLoopFinal (confirmMessage st msg) now cpt intervalS rl act
        ok).stateWriteCalled = Option.none := by
  have hcond : msg.lwnScn > st.confirmedScn ∨
      (msg.lwnScn = st.confirmedScn ∧ msg.lwnIdx > st.confirmedIdx) := by
    by_contra hnot
    exact hchanged (by rw [confirmMessage, if_neg hnot])
  have hsync : confirmMessage st msg =
      ⟨msg.lwnScn, msg.lwnIdx, msg.lwnScn, msg.lwnIdx⟩ := by
    rw [confirmMessage, if_pos hcond]
  have hwc : (writeCheckpoint (confirmMessage st msg) true now cpt intervalS rl act
      ok).stateWriteCalled = Option.none := by
    rw [hsync, writeCheckpoint, if_pos (Or.inl ⟨rfl, rfl⟩)]
  refine ⟨by rw [hsync]; exact ⟨rfl, rfl⟩, hwc, ?_⟩
  rw [mainLoopFinal]
  split
  · exact hwc
  · rfl

/-- C2 witness: the writer at (checkpoint 3/0, confirmed 5/1) confirms
message (7, 2); the confirmation takes effect, the marks are synced, and
the final forced checkpoint calls no stateWrite. -/
theorem C2_confirm_blocks_final_checkpoint_witness :
    confirmMessage ⟨3, 0, 5, 1⟩ ⟨7, 2⟩ ≠ ⟨3, 0, 5, 1⟩ ∧
    (mainLoopFinal (confirmMessage ⟨3, 0, 5, 1⟩ ⟨7, 2⟩) 50 0 600 9 8
        true).stateWriteCalled = Option.none := by
  exact ⟨by decide,
    (C2_confirm_blocks_final_checkpoint ⟨3, 0, 5, 1⟩ ⟨7, 2⟩ 50 0 600 9 8 true
      (by decide)).2.2⟩

/-! ### C9: watermark invariant and monotonicity -/

/-- C9 counterexample: readCheckpoint does decrease checkpointScn.  It
runs on the writer's initial state, where checkpointScn holds the
all-ones NONE sentinel, and overwrites it with the scn read from the
state file (here 42), which is numerically smaller than the sentinel —
so the claim that no call to readCheckpoint ever decreases checkpointScn
fails at this concrete, reachable input. -/
theorem C9_counterexample :
    (readCheckpoint initialWriterState true 42 true 6).checkpointScn <
      initialWriterState.checkpointScn := by
  decide

/-- C9 amended: assuming checkpointScn ≤ confirmedScn, every watermark
operation preserves the invariant; confirmMessage and writeCheckpoint
never decrease confirmedScn or checkpointScn (and confirmMessage changes
the state only when the message's (lwnScn, lwnIdx) is lexicographically
greater than the current confirmed pair, while writeCheckpoint leaves
the confirmed marks untouched); and readCheckpoint, which runs once on
the writer's initial state, keeps confirmedScn, establishes the
invariant for any 64-bit scn read from the state file, and replaces the
NONE sentinel in checkpointScn with that file scn — numerically a
decrease from the sentinel, the one exception to monotonicity. -/
theorem C9_watermarks :
    (∀ (st : WriterState) (msg : BuilderMsg), writerInv st →
      writerInv (confirmMessage st msg) ∧
      st.confirmedScn ≤ (confirmMessage st msg).confirmedScn ∧
      st.checkpointScn ≤ (confirmMessage st msg).checkpointScn ∧
      (confirmMessage st msg ≠ st →
        msg.lwnScn > st.confirmedScn ∨
          (msg.lwnScn = st.confirmedScn ∧ msg.lwnIdx > st.confirmedIdx))) ∧
    (∀ (st : WriterState) (force : Bool) (now cpt intervalS rl act : Nat) (ok : Bool),
      writerInv st →
      writerInv (writeCheckpoint st force now cpt intervalS rl act ok).state ∧
      (writeCheckpoint st force now cpt intervalS rl act ok).state.confirmedScn =
        st.confirmedScn ∧
      (writeCheckpoint st force now cpt intervalS rl act ok).state.confirmedIdx =
        st.confirmedIdx ∧
      st.checkpointScn ≤
        (writeCheckpoint st force now cpt intervalS rl act ok).state.checkpointScn) ∧
    (∀ (ok idxPresent : Bool) (fileScn fileIdx : Nat), fileScn ≤ Scn.none →
      writerInv (readCheckpoint initialWriterState ok fileScn idxPresent fileIdx) ∧
      (readCheckpoint initialWriterState ok fileScn idxPresent fileIdx).confirmedScn =
        initialWriterState.confirmedScn ∧
      (readCheckpoint initialWriterState true fileScn idxPresent fileIdx).checkpointScn =
        fileScn) := by
  refine ⟨?_, ?_, ?_⟩
  · intro st msg hinv
    rw [confirmMessage]
    split
    · rename_i hcond
      refine ⟨le_refl _, ?_, ?_, fun _ => hcond⟩
      · rcases hcond with h | ⟨h, -⟩
        · exact Nat.le_of_lt h
        · exact Nat.le_of_eq h.symm
      · rcases hcond with h | ⟨h, -⟩
        · exact le_trans hinv (Nat.le_of_lt h)
        · exact le_trans hinv (Nat.le_of_eq h.symm)
    · rename_i hcond
      exact ⟨hinv, le_refl _, le_refl _, fun hne => absurd rfl hne⟩
  · intro st force now cpt intervalS rl act ok hinv
    rw [writeCheckpoint]
    dsimp only
    split_ifs <;>
      first
        | exact ⟨hinv, rfl, rfl, le_refl _⟩
        | exact ⟨le_refl _, rfl, rfl, hinv⟩
  · intro ok idxPresent fileScn fileIdx hfile
    cases ok
    · exact ⟨le_refl _, rfl, rfl⟩
    · exact ⟨hfile, rfl, rfl⟩

/-- C9 witness: the three parts of C9_watermarks instantiated on
concrete states: confirming message (7, 2) from state (3, 0, 5, 1),
a forced successful writeCheckpoint from the same state, and
readCheckpoint of a file with scn 42 on the initial writer state. -/
theorem C9_watermarks_witness :
    (writerInv (confirmMessage ⟨3, 0, 5, 1⟩ ⟨7, 2⟩) ∧
      (5 : Nat) ≤ (confirmMessage ⟨3, 0, 5, 1⟩ ⟨7, 2⟩).confirmedScn ∧
      (3 : Nat) ≤ (confirmMessage ⟨3, 0, 5, 1⟩ ⟨7, 2⟩).checkpointScn ∧
      (confirmMessage ⟨3, 0, 5, 1⟩ ⟨7, 2⟩ ≠ ⟨3, 0, 5, 1⟩ →
        (7 : Nat) > 5 ∨ ((7 : Nat) = 5 ∧ (2 : Nat) > 1))) ∧
    writerInv (writeCheckpoint ⟨3, 0, 5, 1⟩ true 50 0 600 9 8 true).state ∧
    writerInv (readCheckpoint initialWriterState true 42 true 6) := by
  refine ⟨?_, ?_, ?_⟩
  · exact (C9_watermarks.1 ⟨3, 0, 5, 1⟩ ⟨7, 2⟩ (by norm_num [writerInv]))
  · exact (C9_watermarks.2.1 ⟨3, 0, 5, 1⟩ true 50 0 600 9 8 true
      (by norm_num [writerInv])).1
  · exact (C9_watermarks.2.2 true true 42 6 (by norm_num [Scn.none])).1

/-! ### C1: dispatch order of an LWN batch -/

/-- C1: the LWN heap of Parser::parse orders records by page offset only
(LwnMember::operator< ignores the sub-SCN): a batch holding a record with
sub-SCN 2 at page offset 16 and a record with sub-SCN 1 at page offset 32
dispatches the sub-SCN-2 record first, although the claim requires the
record with the smaller sub-SCN to be dispatched first. -/
theorem C1_dispatch_ignores_subscn :
    (parserDispatchOrder [⟨16, 9, 24, 2, 2⟩, ⟨32, 9, 24, 2, 1⟩]).map
        LwnMember.subScn = [2, 1] ∧
    (⟨16, 9, 24, 2, 2⟩ : LwnMember).subScn > (⟨32, 9, 24, 2, 1⟩ : LwnMember).subScn := by
  exact ⟨rfl, by decide⟩

/-! ### C5: checkpoint after each fully-processed LWN batch -/

/-- Helper: the drain loop hands over exactly as many records as the
batch holds, regardless of the heap contents. -/
theorem lwnDrain_length : ∀ (n : Nat) (h : List LwnMember),
    (lwnDrain n h).length = n := by
  intro n
  induction n with
  | zero => intro h; rfl
  | succ m ih =>
    intro h
    rw [lwnDrain]
    by_cases hm : m = 0
    · subst hm; rfl
    · simp only [if_neg hm, List.length_cons, ih]

/-- Helper: analyze events pass the isAnalyze filter unchanged. -/
theorem filter_isAnalyze_map (l : List LwnMember) :
    (l.map ParserEvent.analyze).filter ParserEvent.isAnalyze =
      l.map ParserEvent.analyze := by
  induction l with
  | nil => rfl
  | cons a t ih => simp [List.filter, ParserEvent.isAnalyze, ih]

/-- C5: at the end of a fully-scanned LWN batch (currentBlock =
lwnEndBlock and lwnNumCnt = lwnNumMax, metrics on), every record of the
batch is handed to analyzeLwn (the analyze events number exactly the
batch's records), and afterwards: when the batch SCN exceeds
firstDataScn the parser emits builder->processCheckpoint with
(scn, sequence, timestamp, fileOffset, switchRedo) and
metadata->checkpoint with the mins from the transaction buffer's
still-open transactions, plus the checkpoints-out metric; otherwise no
checkpoint call is made and only the checkpoints-skipped metric (plus
the unconditional bytes-parsed metric) is emitted. -/
theorem C5_checkpoint_per_batch (p : ParserBatchState) (records : List LwnMember)
    (openTxns : List OpenTxn) (hend : p.currentBlock = p.lwnEndBlock)
    (hcnt : p.lwnNumCnt = p.lwnNumMax) (hm : p.metricsEnabled = true) :
    ((parseEndOfLwn p records openTxns).filter ParserEvent.isAnalyze).length =
      records.length ∧
    (p.lwnScn > p.firstDataScn →
      parseEndOfLwn p records openTxns =
        (parserDispatchOrder records).map ParserEvent.analyze ++
          [ParserEvent.builderProcessCheckpoint p.lwnScn p.sequence
              p.lwnTimestampEpoch (p.currentBlock * p.blockSize) p.switchRedo,
            ParserEvent.metadataCheckpoint p.lwnScn p.sequence
              (p.currentBlock * p.blockSize) (tbCheckpoint openTxns).1
              (tbCheckpoint openTxns).2.1 (tbCheckpoint openTxns).2.2,
            ParserEvent.metricCheckpointsOut,
            ParserEvent.metricBytesParsed
              ((p.currentBlock - p.lwnConfirmedBlock) * p.blockSize)]) ∧
    (¬ p.lwnScn > p.firstDataScn →
      parseEndOfLwn p records openTxns =
        (parserDispatchOrder records).map ParserEvent.analyze ++
          [ParserEvent.metricCheckpointsSkip,
            ParserEvent.metricBytesParsed
              ((p.currentBlock - p.lwnConfirmedBlock) * p.blockSize)] ∧
      ∀ e ∈ parseEndOfLwn p records openTxns, e.isCheckpointCall = false) := by
  have hout : p.lwnScn > p.firstDataScn →
      parseEndOfLwn p records openTxns =
        (parserDispatchOrder records).map ParserEvent.analyze ++
          [ParserEvent.builderProcessCheckpoint p.lwnScn p.sequence
              p.lwnTimestampEpoch (p.currentBlock * p.blockSize) p.switchRedo,
            ParserEvent.metadataCheckpoint p.lwnScn p.sequence
              (p.currentBlock * p.blockSize) (tbCheckpoint openTxns).1
              (tbCheckpoint openTxns).2.1 (tbCheckpoint openTxns).2.2,
            ParserEvent.metricCheckpointsOut,
            ParserEvent.metricBytesParsed
              ((p.currentBlock - p.lwnConfirmedBlock) * p.blockSize)] := by
    intro hscn
    simp [parseEndOfLwn, hend, hcnt, hm, hscn]
  have hskip : ¬ p.lwnScn > p.firstDataScn →
      parseEndOfLwn p records openTxns =
        (parserDispatchOrder records).map ParserEvent.analyze ++
          [ParserEvent.metricCheckpointsSkip,
            ParserEvent.metricBytesParsed
              ((p.currentBlock - p.lwnConfirmedBlock) * p.blockSize)] := by
    intro hscn
    simp [parseEndOfLwn, hend, hcnt, hm, hscn]
  refine ⟨?_, hout, fun hscn => ⟨hskip hscn, ?_⟩⟩
  · by_cases hscn : p.lwnScn > p.firstDataScn
    · rw [hout hscn, List.filter_append, filter_isAnalyze_map]
      have htail : List.filter ParserEvent.isAnalyze
          [ParserEvent.builderProcessCheckpoint p.lwnScn p.sequence
              p.lwnTimestampEpoch (p.currentBlock * p.blockSize) p.switchRedo,
            ParserEvent.metadataCheckpoint p.lwnScn p.sequence
              (p.currentBlock * p.blockSize) (tbCheckpoint openTxns).1
              (tbCheckpoint openTxns).2.1 (tbCheckpoint openTxns).2.2,
            ParserEvent.metricCheckpointsOut,
            ParserEvent.metricBytesParsed
              ((p.currentBlock - p.lwnConfirmedBlock) * p.blockSize)] = [] := rfl
      rw [htail, List.append_nil, List.length_map, parserDispatchOrder,
        lwnDrain_length]
    · rw [hskip hscn, List.filter_append, filter_isAnalyze_map]
      have htail : List.filter ParserEvent.isAnalyze
          [ParserEvent.metricCheckpointsSkip,
            ParserEvent.metricBytesParsed
              ((p.currentBlock - p.lwnConfirmedBlock) * p.blockSize)] = [] := rfl
      rw [htail, List.append_nil, List.length_map, parserDispatchOrder,
        lwnDrain_length]
  · intro e he
    rw [hskip hscn] at he
    rcases List.mem_append.1 he with h | h
    · obtain ⟨m, -, rfl⟩ := List.mem_map.1 h
      rfl
    · simp only [List.mem_cons, List.not_mem_nil, or_false] at h
      rcases h with rfl | rfl <;> rfl

/-- C5 witness: a one-record batch with SCN 10 above firstDataScn 3
dispatches its record and then emits the checkpoint pair; the same batch
with SCN 2 emits only the skip metric and no checkpoint call. -/
theorem C5_checkpoint_per_batch_witness :
    ((parseEndOfLwn ⟨5, 5, 1, 1, 10, 3, 7, 1111, 512, 2, false, true⟩
        [⟨16, 9, 24, 2, 0⟩] [⟨2, 64, 77⟩]).filter ParserEvent.isAnalyze).length = 1 ∧
    (∀ e ∈ parseEndOfLwn ⟨5, 5, 1, 1, 2, 3, 7, 1111, 512, 2, false, true⟩
        [⟨16, 9, 24, 2, 0⟩] [⟨2, 64, 77⟩], e.isCheckpointCall = false) := by
  refine ⟨?_, ?_⟩
  · exact (C5_checkpoint_per_batch ⟨5, 5, 1, 1, 10, 3, 7, 1111, 512, 2, false, true⟩
      [⟨16, 9, 24, 2, 0⟩] [⟨2, 64, 77⟩] rfl rfl rfl).1
  · exact ((C5_checkpoint_per_batch ⟨5, 5, 1, 1, 2, 3, 7, 1111, 512, 2, false, true⟩
      [⟨16, 9, 24, 2, 0⟩] [⟨2, 64, 77⟩] rfl rfl rfl).2.2 (by decide)).2

/-! ### C10: the block checksum -/

/-- Helper: right shift distributes over XOR. -/
theorem shiftRight_xor_distrib (a b n : Nat) :
    (a ^^^ b) >>> n = (a >>> n) ^^^ (b >>> n) := by
  apply Nat.eq_of_testBit_eq
  intro i
  simp [Nat.testBit_shiftRight, Nat.testBit_xor]

/-- Helper: the middle-four exchange for XOR on Nat. -/
theorem nat_xor_swap (a b c d : Nat) :
    (a ^^^ b) ^^^ (c ^^^ d) = (a ^^^ c) ^^^ (b ^^^ d) := by
  apply Nat.eq_of_testBit_eq
  intro j
  simp only [Nat.testBit_xor]
  exact (by decide :
    ∀ p q r s : Bool, ((p ^^ q) ^^ (r ^^ s)) = ((p ^^ r) ^^ (q ^^ s))) _ _ _ _

/-- Helper: XOR cancellation on the left. -/
theorem nat_xor_cancel_left (x y : Nat) : (x ^^^ y) ^^^ x = y := by
  rw [Nat.xor_comm x y, Nat.xor_assoc, Nat.xor_self, Nat.xor_zero]

/-- Helper: XOR of two numbers agreeing below bit k and differing only in
the multiples of 2 ^ k. -/
theorem add_mul_pow_xor (k a b c : Nat) (ha : a < 2 ^ k) :
    (a + 2 ^ k * b) ^^^ (a + 2 ^ k * c) = 2 ^ k * (b ^^^ c) := by
  apply Nat.eq_of_testBit_eq
  intro j
  rw [Nat.testBit_xor, Nat.add_comm a (2 ^ k * b), Nat.add_comm a (2 ^ k * c),
    Nat.testBit_mul_pow_two_add _ ha, Nat.testBit_mul_pow_two_add _ ha,
    Nat.testBit_mul_pow_two]
  by_cases hj : j < k
  · simp [hj, Nat.not_le.mpr hj]
  · simp [hj, Nat.le_of_not_lt hj, Nat.testBit_xor]

/-- Helper: the 16-bit fold of a value that lives entirely in bits 48 to
63 recovers that 16-bit value. -/
theorem chSumFold_two_pow_48 (e : Nat) (he : e < 2 ^ 16) :
    chSumFold (2 ^ 48 * e) = e := by
  apply Nat.eq_of_testBit_eq
  intro j
  unfold chSumFold
  have hmask : (0xFFFF : Nat) = 2 ^ 16 - 1 := by norm_num
  rw [hmask]
  simp only [Nat.testBit_and, Nat.testBit_xor, Nat.testBit_shiftRight,
    Nat.testBit_two_pow_sub_one, Nat.testBit_mul_pow_two]
  by_cases hj : j < 16
  · have e1 : ¬ (48 ≤ j) := by omega
    have e2 : ¬ (48 ≤ 32 + j) := by omega
    have e3 : ¬ (48 ≤ 16 + j) := by omega
    have e4 : 48 ≤ 32 + (16 + j) := by omega
    have e5 : 32 + (16 + j) - 48 = j := by omega
    simp [e1, e2, e3, e4, e5, hj]
  · have hz : e.testBit j = false :=
      Nat.testBit_lt_two_pow (lt_of_lt_of_le he (Nat.pow_le_pow_right (by norm_num)
        (by omega)))
    simp [hj, hz]

/-- Helper: the fold used by calcChSum distributes over XOR. -/
theorem chSumFold_xor (x y : Nat) :
    chSumFold (x ^^^ y) = chSumFold x ^^^ chSumFold y := by
  unfold chSumFold
  dsimp only
  rw [shiftRight_xor_distrib x y 32, nat_xor_swap x y (x >>> 32) (y >>> 32),
    shiftRight_xor_distrib (x ^^^ x >>> 32) (y ^^^ y >>> 32) 16,
    nat_xor_swap (x ^^^ x >>> 32) (y ^^^ y >>> 32) ((x ^^^ x >>> 32) >>> 16)
      ((y ^^^ y >>> 32) >>> 16),
    Nat.and_xor_distrib_right]

/-- Helper: calcChSum in terms of the bare fold: the masked result is the
fold of the word XOR, XORed with the stored checksum. -/
theorem calcChSum_fold (be : Bool) (b : Nat → Nat) (size : Nat)
    (hc : read16 be b 14 < 2 ^ 16) :
    calcChSum be b size = chSumFold (xorWords b (size / 8)) ^^^ read16 be b 14 := by
  unfold calcChSum chSumFold
  have hmask : (0xFFFF : Nat) = 2 ^ 16 - 1 := by norm_num
  rw [hmask, Nat.and_xor_distrib_right, Nat.and_pow_two_sub_one_of_lt_two_pow hc]

/-- Helper: updChk agrees with the original buffer away from offsets 14
and 15. -/
theorem updChk_at (b : Nat → Nat) (v w i : Nat) (h14 : i ≠ 14) (h15 : i ≠ 15) :
    updChk b v w i = b i := by
  unfold updChk
  rw [Function.update_noteq h15, Function.update_noteq h14]

/-- Helper: updChk at offset 14. -/
theorem updChk_14 (b : Nat → Nat) (v w : Nat) : updChk b v w 14 = v := by
  unfold updChk
  rw [Function.update_noteq (by decide), Function.update_same]

/-- Helper: updChk at offset 15. -/
theorem updChk_15 (b : Nat → Nat) (v w : Nat) : updChk b v w 15 = w := by
  unfold updChk
  rw [Function.update_same]

/-- Helper: a word whose 8 bytes avoid offsets 14 and 15 is unchanged by
updChk. -/
theorem readU64host_updChk (b : Nat → Nat) (v w o : Nat)
    (h : o + 7 < 14 ∨ 15 < o) :
    readU64host (updChk b v w) o = readU64host b o := by
  unfold readU64host
  rw [updChk_at b v w o (by omega) (by omega),
    updChk_at b v w (o + 1) (by omega) (by omega),
    updChk_at b v w (o + 2) (by omega) (by omega),
    updChk_at b v w (o + 3) (by omega) (by omega),
    updChk_at b v w (o + 4) (by omega) (by omega),
    updChk_at b v w (o + 5) (by omega) (by omega),
    updChk_at b v w (o + 6) (by omega) (by omega),
    updChk_at b v w (o + 7) (by omega) (by omega)]

/-- Helper: the word at offset 8 splits into its low 48 bits and the
little-endian 16-bit checksum field at offsets 14 and 15. -/
theorem readU64host_split (b : Nat → Nat) :
    readU64host b 8 =
      (b 8 + 256 * (b 9 + 256 * (b 10 + 256 * (b 11 + 256 * (b 12 + 256 * b 13))))) +
        2 ^ 48 * (b 14 + b 15 * 256) := by
  unfold readU64host
  norm_num
  ring

/-- Helper: XORing the first n words of the updated buffer differs from
the original by the XOR of the two versions of word 1, once n covers
it. -/
theorem xorWords_updChk (b : Nat → Nat) (v w : Nat) :
    ∀ n, 2 ≤ n → xorWords (updChk b v w) n =
      xorWords b n ^^^ (readU64host (updChk b v w) 8 ^^^ readU64host b 8) := by
  have hshuffle : ∀ A D W : Nat, (A ^^^ D) ^^^ W = (A ^^^ W) ^^^ D := by
    intro A D W
    rw [Nat.xor_assoc, Nat.xor_comm D W, Nat.xor_assoc]
  intro n
  induction n with
  | zero => omega
  | succ m ih =>
    intro hn
    by_cases hm : 2 ≤ m
    · rw [xorWords, xorWords, ih hm,
        readU64host_updChk b v w (8 * m) (by omega), hshuffle]
    · have hm2 : m = 1 := by omega
      subst hm2
      rw [xorWords, xorWords, xorWords, xorWords, xorWords, xorWords,
        readU64host_updChk b v w (8 * 0) (by omega)]
      have h81 : 8 * 1 = 8 := by norm_num
      rw [h81]
      have hcancel : ∀ A B C : Nat, (A ^^^ B) ^^^ (C ^^^ B) = A ^^^ C := by
        intro A B C
        rw [Nat.xor_comm C B, ← Nat.xor_assoc, Nat.xor_assoc A B B,
          Nat.xor_self, Nat.xor_zero]
      rw [hcancel]

/-- C10 counterexample: with a big-endian context (ctx->read16 reading
big-endian while the uint64_t words are read in host little-endian
order), overwriting the checksum bytes at offsets 14 and 15 changes the
value of calcChSum: a 512-byte block whose only nonzero byte is a 1 at
offset 14 yields a different checksum after those bytes are overwritten
with zeros. -/
theorem C10_counterexample :
    calcChSum true (updChk (fun i => if i = 14 then 1 else 0) 0 0) 512 ≠
      calcChSum true (fun i => if i = 14 then 1 else 0) 512 := by
  decide

/-- C10 amended: in little-endian mode calcChSum is independent of the
stored checksum field (overwriting bytes 14 and 15 with any byte values
leaves the result unchanged), and in every mode checkBlockHeader's
validity test, stored checksum equals calcChSum, is equivalent to the
16-bit fold (sum ^= sum >> 32; sum ^= sum >> 16; low 16 bits) of the XOR
of all 8-byte words of the block being zero. -/
theorem C10_checksum (b : Nat → Nat) (size v w : Nat)
    (hb : ∀ i, b i < 256) (hv : v < 256) (hw : w < 256) (hsize : 2 ≤ size / 8) :
    calcChSum false (updChk b v w) size = calcChSum false b size ∧
    ∀ be : Bool, (read16 be b 14 = calcChSum be b size ↔
      chSumFold (xorWords b (size / 8)) = 0) := by
  have h216 : (2 : Nat) ^ 16 = 65536 := by norm_num
  have h14 := hb 14
  have h15 := hb 15
  constructor
  · have hcOld : read16 false b 14 = b 14 + b 15 * 256 := by simp [read16]
    have hcNew : read16 false (updChk b v w) 14 = v + w * 256 := by
      simp [read16, updChk_14, updChk_15]
    have h248 : (2 : Nat) ^ 48 = 281474976710656 := by norm_num
    have hlow : (b 8 + 256 * (b 9 + 256 * (b 10 + 256 *
        (b 11 + 256 * (b 12 + 256 * b 13))))) < 2 ^ 48 := by
      have g8 := hb 8
      have g9 := hb 9
      have g10 := hb 10
      have g11 := hb 11
      have g12 := hb 12
      have g13 := hb 13
      omega
    have hsplitU : readU64host (updChk b v w) 8 =
        (b 8 + 256 * (b 9 + 256 * (b 10 + 256 * (b 11 + 256 * (b 12 + 256 * b 13))))) +
          2 ^ 48 * (v + w * 256) := by
      rw [readU64host_split (updChk b v w),
        updChk_at b v w 8 (by decide) (by decide),
        updChk_at b v w 9 (by decide) (by decide),
        updChk_at b v w 10 (by decide) (by decide),
        updChk_at b v w 11 (by decide) (by decide),
        updChk_at b v w 12 (by decide) (by decide),
        updChk_at b v w 13 (by decide) (by decide),
        updChk_14, updChk_15]
    have hD : readU64host (updChk b v w) 8 ^^^ readU64host b 8 =
        2 ^ 48 * ((v + w * 256) ^^^ (b 14 + b 15 * 256)) := by
      rw [hsplitU, readU64host_split b]
      exact add_mul_pow_xor 48 _ _ _ hlow
    have he : (v + w * 256) ^^^ (b 14 + b 15 * 256) < 2 ^ 16 :=
      Nat.xor_lt_two_pow (by omega) (by omega)
    rw [calcChSum_fold false (updChk b v w) size (by rw [hcNew]; omega),
      calcChSum_fold false b size (by rw [hcOld]; omega),
      xorWords_updChk b v w (size / 8) hsize, chSumFold_xor, hD,
      chSumFold_two_pow_48 _ he, hcNew, hcOld, Nat.xor_assoc,
      nat_xor_cancel_left]
  · intro be
    have hc : read16 be b 14 < 2 ^ 16 := by
      cases be <;> simp [read16] <;> omega
    rw [calcChSum_fold be b size hc]
    constructor
    · intro h
      have h2 := congrArg (fun t => t ^^^ read16 be b 14) h
      simp only at h2
      rw [Nat.xor_self, Nat.xor_assoc, Nat.xor_self, Nat.xor_zero] at h2
      exact h2.symm
    · intro h
      rw [h, Nat.zero_xor]

/-- C10 witness: the constant-7 block of 512 bytes, with bytes 14 and 15
overwritten by 1 and 2, instantiates both parts of C10_checksum. -/
theorem C10_checksum_witness :
    calcChSum false (updChk (fun _ => 7) 1 2) 512 =
      calcChSum false (fun _ => 7) 512 ∧
    (read16 false (fun _ => 7) 14 = calcChSum false (fun _ => 7) 512 ↔
      chSumFold (xorWords (fun _ => 7) (512 / 8)) = 0) := by
  refine ⟨(C10_checksum (fun _ => 7) 512 1 2 (fun i => by norm_num) (by norm_num)
      (by norm_num) (by norm_num)).1,
    (C10_checksum (fun _ => 7) 512 1 2 (fun i => by norm_num) (by norm_num)
      (by norm_num) (by norm_num)).2 false⟩

end OpenLogReplicator
